import Mathlib

/-!
Verification of the AugenPay SDK core (delegated, spend-limited payments on
Solana).  This file gives a shallow embedding of the SDK's context hashing
(`src/utils/hashing.ts`), PDA derivation and ledger scans (`src/core/pda.ts`),
settlement entry point (`src/services/redeem.ts`), allotment status and fetch
logic (`src/types/accounts.ts`), and the merchant payment gate
(`src/utils/payment-gate.ts`), and proves or refutes the specification's
claims about them.
-/

/-! ## JavaScript value model

`OrderData` in the SDK is an arbitrary JS object (string keys, arbitrary
values).  `JValue` models the JSON-relevant fragment of JS values; an object
is an association list in insertion order, as JS objects enumerate string
keys in insertion order. -/

inductive JValue : Type where
  | num (n : Int)
  | str (s : String)
  | bool (b : Bool)
  | null
  | undef
  | arr (elems : List JValue)
  | obj (fields : List (String × JValue))

/-- OrderData (src/utils/hashing.ts): a JS object with string keys. -/
abbrev OrderData : Type := List (String × JValue)

/-- Structural size of a JS value, used to fuel the serializer. -/
def jvalSize : JValue → Nat
  | JValue.num _ => 1
  | JValue.str _ => 1
  | JValue.bool _ => 1
  | JValue.null => 1
  | JValue.undef => 1
  | JValue.arr elems => 1 + jvalListSize elems
  | JValue.obj fields => 1 + jfieldsSize fields
where
  jvalListSize : List JValue → Nat
    | [] => 0
    | v :: t => 1 + jvalSize v + jvalListSize t
  jfieldsSize : List (String × JValue) → Nat
    | [] => 0
    | (_, v) :: t => 1 + jvalSize v + jfieldsSize t

/-! ## JS string comparison and Array.prototype.sort

`Object.keys(orderData).sort()` sorts the keys with the default comparator,
i.e. lexicographically by UTF-16 code units (identical to code-point order
for the BMP keys used throughout the SDK). -/

def jsStrLtData : List Char → List Char → Bool
  | [], [] => false
  | [], _ :: _ => true
  | _ :: _, [] => false
  | a :: s, b :: t =>
    if a.toNat < b.toNat then true
    else if b.toNat < a.toNat then false
    else jsStrLtData s t

/-- JS string ordering used by the default sort comparator: a ≤ b. -/
def jsLe (a b : String) : Bool := !(jsStrLtData b.data a.data)

/-- Model of Array.prototype.sort on string arrays (a stable sort by `jsLe`). -/
def jsSortKeys (l : List String) : List String :=
  List.insertionSort (fun a b => jsLe a b = true) l

/-! ## JSON.stringify with an array replacer

`createContextHash` calls `JSON.stringify(orderData, Object.keys(orderData).sort())`.
Per ECMA-262, an array replacer forms a PropertyList that is used, at every
object level, both as the enumeration order and as a key allowlist: an
object's property is serialized iff its key occurs in the PropertyList, in
PropertyList order.  Array elements are always serialized (an element that
serializes to undefined becomes "null").  The recursion is fueled; the fuel
passed by the wrapper (the structural size of the value) always suffices. -/

def hexDigitChar (n : Nat) : Char :=
  if n < 10 then Char.ofNat (48 + n) else Char.ofNat (87 + n)

def escapeJSONChar (c : Char) : String :=
  if c = '"' then "\\\""
  else if c = '\\' then "\\\\"
  else if c = Char.ofNat 8 then "\\b"
  else if c = Char.ofNat 9 then "\\t"
  else if c = Char.ofNat 10 then "\\n"
  else if c = Char.ofNat 12 then "\\f"
  else if c = Char.ofNat 13 then "\\r"
  else if c.toNat < 32 then
    String.mk ['\\', 'u', '0', '0', hexDigitChar (c.toNat / 16), hexDigitChar (c.toNat % 16)]
  else String.mk [c]

/-- QuoteJSONString from ECMA-262 (for the ASCII keys and values used here). -/
def quoteJSONStr (s : String) : String :=
  "\"" ++ String.join (s.data.map escapeJSONChar) ++ "\""

def commaStr : String := ","

def lbraceStr : String := "\x7b"

def rbraceStr : String := "\x7d"

def colonStr : String := ":"

/-- SerializeJSONProperty from ECMA-262, with the PropertyList `P` coming from
the array replacer.  Returns `none` where the ECMA algorithm returns the
undefined completion (the property is then skipped). -/
def serValF : Nat → List String → JValue → Option String
  | 0, _, _ => none
  | _ + 1, _, JValue.num n => some (toString n)
  | _ + 1, _, JValue.str s => some (quoteJSONStr s)
  | _ + 1, _, JValue.bool b => some (cond b "true" "false")
  | _ + 1, _, JValue.null => some "null"
  | _ + 1, _, JValue.undef => none
  | fuel + 1, P, JValue.arr elems =>
    some ("[" ++ String.intercalate commaStr
      (elems.map (fun e => (serValF fuel P e).getD "null")) ++ "]")
  | fuel + 1, P, JValue.obj fields =>
    some (lbraceStr ++ String.intercalate commaStr
      (P.filterMap (fun k =>
        match List.lookup k fields with
        | some v =>
          match serValF fuel P v with
          | some s => some (quoteJSONStr k ++ colonStr ++ s)
          | none => none
        | none => none)) ++ rbraceStr)

/-- JSON.stringify(orderData, Object.keys(orderData).sort()), the
"normalized" string computed by createContextHash (src/utils/hashing.ts). -/
def normalizeOrderData (orderData : OrderData) : String :=
  (serValF (jvalSize (JValue.obj orderData)) (jsSortKeys (orderData.map Prod.fst))
    (JValue.obj orderData)).getD ""

/-! ## UTF-8 and SHA-256

`createHash("sha256").update(normalized)` hashes the UTF-8 bytes of the
normalized string.  SHA-256 is node's crypto library, modeled here as the
FIPS 180-4 algorithm on byte lists; hash equalities in the proofs below are
obtained by congruence from equal serializations, or by direct evaluation
on short concrete inputs. -/

def utf8EncodeChar (c : Char) : List Nat :=
  let n := c.toNat
  if n < 128 then [n]
  else if n < 2048 then [192 + n / 64, 128 + n % 64]
  else if n < 65536 then [224 + n / 4096, 128 + (n / 64) % 64, 128 + n % 64]
  else [240 + n / 262144, 128 + (n / 4096) % 64, 128 + (n / 64) % 64, 128 + n % 64]

def utf8Encode (s : String) : List Nat :=
  (s.data.map utf8EncodeChar).flatten

def w32 (n : Nat) : Nat := n % 4294967296

def rotr32 (k x : Nat) : Nat := w32 ((x >>> k) ||| (x <<< (32 - k)))

def bsig0 (x : Nat) : Nat := (rotr32 2 x) ^^^ (rotr32 13 x) ^^^ (rotr32 22 x)

def bsig1 (x : Nat) : Nat := (rotr32 6 x) ^^^ (rotr32 11 x) ^^^ (rotr32 25 x)

def ssig0 (x : Nat) : Nat := (rotr32 7 x) ^^^ (rotr32 18 x) ^^^ (x >>> 3)

def ssig1 (x : Nat) : Nat := (rotr32 17 x) ^^^ (rotr32 19 x) ^^^ (x >>> 10)

def shaCh (e f g : Nat) : Nat := (e &&& f) ^^^ ((e ^^^ 4294967295) &&& g)

def shaMaj (a b c : Nat) : Nat := (a &&& b) ^^^ (a &&& c) ^^^ (b &&& c)

def shaK : List Nat :=
  [1116352408, 1899447441, 3049323471, 3921009573, 961987163,
   1508970993, 2453635748, 2870763221, 3624381080, 310598401,
   607225278, 1426881987, 1925078388, 2162078206, 2614888103,
   3248222580, 3835390401, 4022224774, 264347078, 604807628,
   770255983, 1249150122, 1555081692, 1996064986, 2554220882,
   2821834349, 2952996808, 3210313671, 3336571891, 3584528711,
   113926993, 338241895, 666307205, 773529912, 1294757372,
   1396182291, 1695183700, 1986661051, 2177026350, 2456956037,
   2730485921, 2820302411, 3259730800, 3345764771, 3516065817,
   3600352804, 4094571909, 275423344, 430227734, 506948616,
   659060556, 883997877, 958139571, 1322822218, 1537002063,
   1747873779, 1955562222, 2024104815, 2227730452, 2361852424,
   2428436474, 2756734187, 3204031479, 3329325298]

def shaH0 : List Nat :=
  [1779033703, 3144134277, 1013904242, 2773480762,
   1359893119, 2600822924, 528734635, 1541459225]

def be8Bytes (n : Nat) : List Nat :=
  [(n >>> 56) % 256, (n >>> 48) % 256, (n >>> 40) % 256, (n >>> 32) % 256,
   (n >>> 24) % 256, (n >>> 16) % 256, (n >>> 8) % 256, n % 256]

def be4Bytes (n : Nat) : List Nat :=
  [(n >>> 24) % 256, (n >>> 16) % 256, (n >>> 8) % 256, n % 256]

def shaPad (msg : List Nat) : List Nat :=
  msg ++ [128] ++ List.replicate ((120 - (msg.length + 1) % 64) % 64) 0
    ++ be8Bytes (msg.length * 8)

def toWordsBE : List Nat → List Nat
  | b0 :: b1 :: b2 :: b3 :: rest =>
    (b0 * 16777216 + b1 * 65536 + b2 * 256 + b3) :: toWordsBE rest
  | _ => []

def toBlocks : Nat → List Nat → List (List Nat)
  | 0, _ => []
  | _, [] => []
  | fuel + 1, msg => msg.take 64 :: toBlocks fuel (msg.drop 64)

def shaSchedule (w16 : List Nat) : List Nat :=
  (List.range 48).foldl (fun ws _ =>
    ws ++ [w32 (ssig1 (ws.getD (ws.length - 2) 0) + ws.getD (ws.length - 7) 0
      + ssig0 (ws.getD (ws.length - 15) 0) + ws.getD (ws.length - 16) 0)]) w16

def shaRound (st : List Nat) (kw : Nat) : List Nat :=
  match st with
  | [a, b, c, d, e, f, g, hh] =>
    let t1 := w32 (hh + bsig1 e + shaCh e f g + kw)
    let t2 := w32 (bsig0 a + shaMaj a b c)
    [w32 (t1 + t2), a, b, c, w32 (d + t1), e, f, g]
  | other => other

def shaCompress (hs : List Nat) (block : List Nat) : List Nat :=
  let w := shaSchedule (toWordsBE block)
  let st := (List.range 64).foldl
    (fun st i => shaRound st (w32 (shaK.getD i 0 + w.getD i 0))) hs
  List.zipWith (fun x y => w32 (x + y)) hs st

/-- SHA-256 digest of a byte list (FIPS 180-4), as 32 bytes. -/
def sha256 (msg : List Nat) : List Nat :=
  let padded := shaPad msg
  ((toBlocks padded.length padded).foldl shaCompress shaH0).map id |>.foldr
    (fun h acc => be4Bytes h ++ acc) []

/-- createContextHash (src/utils/hashing.ts): SHA-256 of the canonicalized
order data.  `JSON.stringify(orderData, Object.keys(orderData).sort())`
followed by a SHA-256 digest of the UTF-8 bytes. -/
def createContextHash (orderData : OrderData) : List Nat :=
  sha256 (utf8Encode (normalizeOrderData orderData))

/-- createContextHashArray (src/utils/hashing.ts): `Array.from` of the digest
buffer, i.e. the same byte list. -/
def createContextHashArray (orderData : OrderData) : List Nat :=
  createContextHash orderData

/-- verifyContextHash (src/utils/hashing.ts): recompute and compare bytes. -/
def verifyContextHash (orderData : OrderData) (expectedHash : List Nat) : Bool :=
  createContextHash orderData == expectedHash

/-- hashToHex (src/utils/hashing.ts): lowercase hex rendering of the bytes. -/
def hashToHex (hash : List Nat) : String :=
  String.mk (hash.flatMap (fun b =>
    [hexDigitChar (b / 16 % 16), hexDigitChar (b % 16)]))

def hexCharVal (c : Char) : Option Nat :=
  if 48 ≤ c.toNat ∧ c.toNat ≤ 57 then some (c.toNat - 48)
  else if 97 ≤ c.toNat ∧ c.toNat ≤ 102 then some (c.toNat - 87)
  else if 65 ≤ c.toNat ∧ c.toNat ≤ 70 then some (c.toNat - 55)
  else none

/-- Buffer.from(hex, "hex"): parse hex digit pairs, stopping at the first
invalid pair or odd tail (node semantics). -/
def hexToBytesData : List Char → List Nat
  | c1 :: c2 :: rest =>
    match hexCharVal c1, hexCharVal c2 with
    | some h, some l => (h * 16 + l) :: hexToBytesData rest
    | _, _ => []
  | _ => []

/-- hexToHashArray (src/utils/hashing.ts): `Array.from(Buffer.from(hex, "hex"))`. -/
def hexToHashArray (hex : String) : List Nat := hexToBytesData hex.data

/-! ## Ticket PDA derivation (src/core/pda.ts) and its call in redeemAllotment

`deriveTicketPDA(merchant, allotment, redemptionCount, programId)` builds the
seed list `[b"ticket", merchant, allotment, redemptionCount LE 8 bytes]` and
calls `PublicKey.findProgramAddressSync`.  The SDK runs on dynamically typed
JS at runtime, so the embedding models each argument slot as a JS runtime
value: `redemptionCount.toArrayLike(Buffer, "le", 8)` is only defined when
the slot actually holds a BN; on a PublicKey or undefined it throws a
TypeError.  `findProgramAddressSync` itself is the external web3.js
SHA-256-based bump search, kept abstract as a parameter `pdafn` from seeds
and program id to an address and bump. -/

/-- Identities (PublicKey) are 32-byte values on the ledger. -/
abbrev PubKey : Type := List Nat

/-- Runtime JS value sitting in an argument slot of deriveTicketPDA. -/
inductive JsArg : Type where
  | pubkey (bytes : List Nat)
  | bn (n : Nat)
  | undef
deriving DecidableEq

/-- JS runtime failure raised inside a derivation call. -/
inductive JsFailure : Type where
  | typeError (method : String)
deriving DecidableEq

/-- Little-endian fixed-width 8-byte encoding of a counter,
`bn.toArrayLike(Buffer, "le", 8)`. -/
def le8Bytes (n : Nat) : List Nat :=
  [n % 256, (n >>> 8) % 256, (n >>> 16) % 256, (n >>> 24) % 256,
   (n >>> 32) % 256, (n >>> 40) % 256, (n >>> 48) % 256, (n >>> 56) % 256]

def toArrayLikeLE8 : JsArg → Except JsFailure (List Nat)
  | JsArg.bn n => Except.ok (le8Bytes n)
  | JsArg.pubkey _ => Except.error (JsFailure.typeError "toArrayLike")
  | JsArg.undef => Except.error (JsFailure.typeError "toArrayLike")

def pubkeyBytes : JsArg → Except JsFailure (List Nat)
  | JsArg.pubkey b => Except.ok b
  | JsArg.bn _ => Except.error (JsFailure.typeError "toBuffer")
  | JsArg.undef => Except.error (JsFailure.typeError "toBuffer")

/-- Bytes of the string constant SEEDS.TICKET = "ticket". -/
def ticketSeedBytes : List Nat := utf8Encode "ticket"

/-- deriveTicketPDA (src/core/pda.ts): seeds
`[b"ticket", merchant, allotment, redemptionCount LE8]`, then
findProgramAddressSync (abstract `pdafn`). -/
def deriveTicketPDA (pdafn : List (List Nat) → List Nat → List Nat × Nat)
    (merchant allotment : List Nat) (redemptionCount : JsArg)
    (programId : JsArg) : Except JsFailure (List Nat × Nat) := do
  let countBytes ← toArrayLikeLE8 redemptionCount
  let pid ← pubkeyBytes programId
  Except.ok (pdafn [ticketSeedBytes, merchant, allotment, countBytes] pid)

/-- The ticket-address derivation performed by redeemAllotment
(src/services/redeem.ts line 36): the source calls
`deriveTicketPDA(params.merchant, params.allotment, program.programId)`,
passing only three of the four parameters, so the program id occupies the
redemptionCount slot and the programId slot is undefined. -/
def redeemAllotmentTicketDerivation
    (pdafn : List (List Nat) → List Nat → List Nat × Nat)
    (merchant allotment programId : List Nat) :
    Except JsFailure (List Nat × Nat) :=
  deriveTicketPDA pdafn merchant allotment (JsArg.pubkey programId) JsArg.undef

/-! ## Allotment accounts (src/types/accounts.ts, src/services/allotment.ts) -/

/-- AllotmentAccount: agent spending grant state. -/
structure AllotmentAccount : Type where
  mandate : PubKey
  agent : PubKey
  allowedAmount : Nat
  spentAmount : Nat
  ttl : Int
  revoked : Bool
  redemptionCount : Nat

/-- AllotmentStatus (src/types/accounts.ts). -/
inductive AllotmentStatus : Type where
  | active
  | revoked
  | expired
  | fully_spent
deriving DecidableEq

/-- getAllotmentStatus (src/types/accounts.ts, allotment service): derived, never stored.
`nowMs` is `Date.now()` in milliseconds; `ttl` is a Unix timestamp in
seconds, hence the `* 1000`. -/
def getAllotmentStatus (nowMs : Int) (allotment : AllotmentAccount) :
    AllotmentStatus :=
  if allotment.revoked then AllotmentStatus.revoked
  else if nowMs > allotment.ttl * 1000 then AllotmentStatus.expired
  else if allotment.spentAmount ≥ allotment.allowedAmount then
    AllotmentStatus.fully_spent
  else AllotmentStatus.active

/-- Derived status as the specification words it (spec section 4.4): revoked
beats expired beats fully-spent beats active, computed in that fixed
precedence. -/
def allotmentStatusSpec (nowMs : Int) (allotment : AllotmentAccount) :
    AllotmentStatus :=
  if allotment.revoked then AllotmentStatus.revoked
  else if nowMs > allotment.ttl * 1000 then AllotmentStatus.expired
  else if allotment.spentAmount ≥ allotment.allowedAmount then
    AllotmentStatus.fully_spent
  else AllotmentStatus.active

/-! ## fetchAllotment error handling (src/services/allotment.ts) -/

/-- A JS error object as observed by the catch block: an optional message
and an optional numeric code. -/
structure JsError : Type where
  message : Option String
  code : Option Int
deriving DecidableEq

def listStartsWith : List Char → List Char → Bool
  | _, [] => true
  | [], _ :: _ => false
  | a :: s, b :: p => a == b && listStartsWith s p

def listContainsSub : List Char → List Char → Bool
  | [], pat => pat.isEmpty
  | s@(_ :: t), pat => listStartsWith s pat || listContainsSub t pat

/-- JS String.prototype.includes. -/
def strContains (s pat : String) : Bool := listContainsSub s.data pat.data

def adndStr : String := "AccountDidNotDeserialize"

/-- The catch condition in fetchAllotment:
`error.message?.includes("AccountDidNotDeserialize") || error.code === 3003`. -/
def isDeserializeFailure (e : JsError) : Bool :=
  (match e.message with
   | some m => strContains m adndStr
   | none => false) || e.code == some 3003

/-- The distinct incompatible-record-version error message thrown by
fetchAllotment for old-layout allotments. -/
def incompatMessage (allotmentB58 : String) : String :=
  "Allotment account structure mismatch. This allotment was created with an older version of the protocol " ++
  "that doesn't include redemption_count. Please create a new allotment using the updated protocol. " ++
  "Allotment: " ++ allotmentB58

/-- Outcome of fetchAllotment when it does not return an account. -/
inductive FetchAllotmentError : Type where
  | incompatibleVersion (message : String)
  | rethrown (e : JsError)
deriving DecidableEq

/-- Raw allotment account as deserialized by the anchor layer; old-layout
accounts that still deserialized lack redemptionCount. -/
structure RawAllotment : Type where
  mandate : PubKey
  agent : PubKey
  allowedAmount : Nat
  spentAmount : Nat
  ttl : Int
  revoked : Bool
  redemptionCount : Option Nat

/-- fetchAllotment (src/types/accounts.ts, allotment service): the anchor fetch either
yields a raw account or throws a JS error; the catch block maps
deserialization failures to the distinct incompatible-version error and
rethrows everything else. `account.redemptionCount || new BN(0)` defaults a
missing field to zero (a BN is an object, hence truthy even at zero). -/
def fetchAllotment (allotmentB58 : String)
    (fetched : Except JsError RawAllotment) :
    Except FetchAllotmentError AllotmentAccount :=
  match fetched with
  | Except.ok a =>
    Except.ok
      { mandate := a.mandate, agent := a.agent,
        allowedAmount := a.allowedAmount, spentAmount := a.spentAmount,
        ttl := a.ttl, revoked := a.revoked,
        redemptionCount := a.redemptionCount.getD 0 }
  | Except.error e =>
    if isDeserializeFailure e then
      Except.error (FetchAllotmentError.incompatibleVersion (incompatMessage allotmentB58))
    else
      Except.error (FetchAllotmentError.rethrown e)

/-! ## Ledger-wide scans (src/core/pda.ts)

`getProgramAccounts` with `dataSize` and `memcmp` filters is the external
ledger scan capability: it returns exactly the accounts whose raw data
satisfies every filter.  The memcmp bytes travel base58-encoded over RPC and
are decoded back to the same raw bytes by the node, so the round trip is the
identity and the filter is modeled on the raw bytes. -/

structure RawAccount : Type where
  pubkey : PubKey
  data : List Nat

inductive RpcFilter : Type where
  | dataSize (n : Nat)
  | memcmp (offset : Nat) (bytes : List Nat)

def matchesFilter (acc : RawAccount) : RpcFilter → Bool
  | RpcFilter.dataSize n => acc.data.length == n
  | RpcFilter.memcmp off b => (acc.data.drop off).take b.length == b

/-- connection.getProgramAccounts with a filter list. -/
def getProgramAccounts (accounts : List RawAccount)
    (filters : List RpcFilter) : List RawAccount :=
  accounts.filter (fun a => filters.all (matchesFilter a))

/-- getUserMandates (src/core/pda.ts): dataSize 138 and memcmp of the owner
bytes at offset 8, returning the matching pubkeys. -/
def getUserMandates (owner : PubKey) (accounts : List RawAccount) :
    List PubKey :=
  (getProgramAccounts accounts
    [RpcFilter.dataSize 138, RpcFilter.memcmp 8 owner]).map RawAccount.pubkey

/-- getMerchantTickets (src/core/pda.ts): dataSize 120 and memcmp of the
merchant bytes at offset 40, returning the matching pubkeys. -/
def getMerchantTickets (merchant : PubKey) (accounts : List RawAccount) :
    List PubKey :=
  (getProgramAccounts accounts
    [RpcFilter.dataSize 120, RpcFilter.memcmp 40 merchant]).map RawAccount.pubkey

/-- Byte slice `[i..j)` of a record's data. -/
def byteSlice (data : List Nat) (i j : Nat) : List Nat :=
  (data.drop i).take (j - i)

/-- The claim-side filter for Authorization (mandate) records: total size 138
bytes and bytes [8..40) equal to the owner identity. -/
def mandateScanSpec (owner : PubKey) (acc : RawAccount) : Bool :=
  acc.data.length == 138 && byteSlice acc.data 8 40 == owner

/-- The claim-side filter for Receipt (ticket) records: total size 120 bytes
and bytes [40..72) equal to the merchant identity. -/
def ticketScanSpec (merchant : PubKey) (acc : RawAccount) : Bool :=
  acc.data.length == 120 && byteSlice acc.data 40 72 == merchant

/-! ## Payment gate / order state machine (src/utils/payment-gate.ts)

The gate's ledger reads (`fetchTicket`, `findTicketByHash` from
src/services/merchant.ts) are modeled by a `Chain` oracle: `fetchTicket`
either yields a ticket or throws (covering both an invalid base58 ticket
string and a failed account fetch, which land in the same catch block), and
`merchantTickets` is the merchant's ticket list returned by
`fetchMerchantTickets` in scan order.  The in-memory `Map<string, OrderStatus>`
store is an association list in insertion order; `Map.set` on an existing
key replaces the value in place. -/

/-- RedemptionTicket (src/types/accounts.ts) as read back from the ledger. -/
structure Ticket : Type where
  allotment : PubKey
  merchant : PubKey
  contextHash : List Nat
  amount : Nat
  timestamp : Int

/-- PaymentChallenge.paymentData (src/utils/payment-gate.ts). -/
structure PaymentData : Type where
  amount : Nat
  merchant : PubKey
  merchantTokenAccount : PubKey
  orderHash : String
  orderData : OrderData
  orderId : Option String

/-- PaymentChallenge (src/utils/payment-gate.ts): a 402 response. -/
structure PaymentChallenge : Type where
  status : Nat
  paymentRequired : Bool
  paymentData : PaymentData

/-- PaymentProof (src/utils/payment-gate.ts): either a direct ticket
reference or an order hash to search for. -/
structure PaymentProof : Type where
  ticket : Option PubKey
  transactionSignature : Option String
  orderHash : Option String

/-- Order status values: "pending" | "paid" | "fulfilled". -/
inductive OrderState : Type where
  | pending
  | paid
  | fulfilled
deriving DecidableEq

/-- OrderStatus (src/utils/payment-gate.ts): merchant-side order record. -/
structure OrderStatus : Type where
  orderId : String
  orderData : OrderData
  paymentChallenge : PaymentChallenge
  status : OrderState
  ticket : Option PubKey
  proofSubmittedAt : Option Nat

/-- The OrderStore's `Map<string, OrderStatus>`, in insertion order. -/
abbrev OrderStore : Type := List (String × OrderStatus)

/-- Map.prototype.set: replace in place if the key exists, else append. -/
def mapSet : OrderStore → String → OrderStatus → OrderStore
  | [], k, v => [(k, v)]
  | (k1, v1) :: t, k, v =>
    if k1 = k then (k, v) :: t else (k1, v1) :: mapSet t k v

/-- OrderStore.getOrder: Map.prototype.get. -/
def getOrder (store : OrderStore) (orderId : String) : Option OrderStatus :=
  List.lookup orderId store

/-- Partial OrderStatus updates accepted by OrderStore.updateOrder
(Partial of OrderStatus; a field set in the update overrides the stored
field under the object spread). -/
structure OrderUpdates : Type where
  orderId : Option String := none
  orderData : Option OrderData := none
  paymentChallenge : Option PaymentChallenge := none
  status : Option OrderState := none
  ticket : Option (Option PubKey) := none
  proofSubmittedAt : Option (Option Nat) := none

/-- The object spread in updateOrder. -/
def applyUpdates (order : OrderStatus) (u : OrderUpdates) : OrderStatus :=
  { orderId := u.orderId.getD order.orderId,
    orderData := u.orderData.getD order.orderData,
    paymentChallenge := u.paymentChallenge.getD order.paymentChallenge,
    status := u.status.getD order.status,
    ticket := u.ticket.getD order.ticket,
    proofSubmittedAt := u.proofSubmittedAt.getD order.proofSubmittedAt }

/-- OrderStore.updateOrder: no-op when the order is absent, otherwise store
the spread of the old order and the updates. -/
def updateOrder (store : OrderStore) (orderId : String) (u : OrderUpdates) :
    OrderStore :=
  match List.lookup orderId store with
  | none => store
  | some order => mapSet store orderId (applyUpdates order u)

/-- OrderStore.createOrder, invoked by createPaymentChallenge: a fresh
OrderStatus in status "pending" with no ticket and no proof timestamp. -/
def createOrder (store : OrderStore) (orderId : String) (orderData : OrderData)
    (paymentChallenge : PaymentChallenge) : OrderStore :=
  mapSet store orderId
    { orderId := orderId, orderData := orderData,
      paymentChallenge := paymentChallenge, status := OrderState.pending,
      ticket := none, proofSubmittedAt := none }

/-- createPaymentChallenge (src/utils/payment-gate.ts): compute the order
hash, build the 402 challenge, store the order as pending, return the
challenge. -/
def createPaymentChallenge (store : OrderStore) (orderId : String)
    (orderData : OrderData) (amount : Nat) (merchant : PubKey)
    (merchantTokenAccount : PubKey) : OrderStore × PaymentChallenge :=
  let orderHash := hashToHex (createContextHashArray orderData)
  let challenge : PaymentChallenge :=
    { status := 402, paymentRequired := true,
      paymentData :=
        { amount := amount, merchant := merchant,
          merchantTokenAccount := merchantTokenAccount,
          orderHash := orderHash, orderData := orderData,
          orderId := some orderId } }
  (createOrder store orderId orderData challenge, challenge)

/-- Ledger oracle for the gate's reads: `fetchTicket` throws or yields the
ticket at an address; `merchantTickets` is fetchMerchantTickets
(src/services/merchant.ts), which can also throw while scanning. -/
structure Chain : Type where
  fetchTicket : PubKey → Except String Ticket
  merchantTickets : PubKey → Except String (List (PubKey × Ticket))

/-- findTicketByHash (src/services/merchant.ts): first of the merchant's
tickets whose context hash bytes equal the target bytes. -/
def findTicketByHash (chain : Chain) (merchant : PubKey)
    (targetHash : List Nat) : Except String (Option (PubKey × Ticket)) :=
  (chain.merchantTickets merchant).map
    (fun tickets => tickets.find? (fun t => t.2.contextHash == targetHash))

/-- Result of verifyPaymentProof: the gate never throws on verification
failure, it returns valid/ticket/error. -/
structure VerifyResult : Type where
  valid : Bool
  ticket : Option PubKey
  error : Option String

def orderNotFoundMsg : String := "Order not found"

def orderAlreadyPaidMsg : String := "Order already paid"

def notThisMerchantMsg : String := "Ticket does not belong to this merchant"

def orderHashMismatchMsg : String := "Order hash mismatch"

def invalidTicketMsg : String := "Invalid ticket: "

def amountMismatchMsg : String := "Payment amount mismatch"

def noMatchingTicketMsg : String := "No matching ticket found on-chain"

def noValidProofMsg : String := "No valid proof provided"

def searchErrorMsg : String := "Error searching for ticket: "

/-- verifyPaymentProof (src/utils/payment-gate.ts): look up the order; bail
out if missing or already paid; then verify a direct ticket reference
(merchant then context hash) or search the merchant's tickets by hash
(then check the amount); on success mark the order paid with the ticket
and proof timestamp `nowMs`. -/
def verifyPaymentProof (chain : Chain) (nowMs : Nat) (store : OrderStore)
    (orderId : String) (proof : PaymentProof) : OrderStore × VerifyResult :=
  match List.lookup orderId store with
  | none => (store, { valid := false, ticket := none, error := some orderNotFoundMsg })
  | some order =>
    if order.status = OrderState.paid ∨ order.status = OrderState.fulfilled then
      (store, { valid := false, ticket := none, error := some orderAlreadyPaidMsg })
    else
      match proof.ticket with
      | some ticketPubkey =>
        match chain.fetchTicket ticketPubkey with
        | Except.error e =>
          (store, { valid := false, ticket := none,
                    error := some (invalidTicketMsg ++ e) })
        | Except.ok ticketData =>
          if ticketData.merchant == order.paymentChallenge.paymentData.merchant then
            if verifyContextHash order.orderData ticketData.contextHash then
              (updateOrder store orderId
                { status := some OrderState.paid,
                  ticket := some (some ticketPubkey),
                  proofSubmittedAt := some (some nowMs) },
               { valid := true, ticket := some ticketPubkey, error := none })
            else
              (store, { valid := false, ticket := none,
                        error := some orderHashMismatchMsg })
          else
            (store, { valid := false, ticket := none,
                      error := some notThisMerchantMsg })
      | none =>
        match proof.orderHash with
        | some orderHash =>
          match findTicketByHash chain order.paymentChallenge.paymentData.merchant
              (hexToHashArray orderHash) with
          | Except.error e =>
            (store, { valid := false, ticket := none,
                      error := some (searchErrorMsg ++ e) })
          | Except.ok (some found) =>
            if found.2.amount ≠ order.paymentChallenge.paymentData.amount then
              (store, { valid := false, ticket := none,
                        error := some amountMismatchMsg })
            else
              (updateOrder store orderId
                { status := some OrderState.paid,
                  ticket := some (some found.1),
                  proofSubmittedAt := some (some nowMs) },
               { valid := true, ticket := some found.1, error := none })
          | Except.ok none =>
            (store, { valid := false, ticket := none,
                      error := some noMatchingTicketMsg })
        | none =>
          (store, { valid := false, ticket := none,
                    error := some noValidProofMsg })

/-- isOrderPaid (src/utils/payment-gate.ts). -/
def isOrderPaid (store : OrderStore) (orderId : String) : Bool :=
  match List.lookup orderId store with
  | some order =>
    order.status = OrderState.paid ∨ order.status = OrderState.fulfilled
  | none => false

/-- fulfillOrder (src/utils/payment-gate.ts): legal only from "paid". -/
def fulfillOrder (store : OrderStore) (orderId : String) : OrderStore × Bool :=
  match List.lookup orderId store with
  | some order =>
    if order.status = OrderState.paid then
      (updateOrder store orderId { status := some OrderState.fulfilled }, true)
    else (store, false)
  | none => (store, false)

/-! ## Concrete inputs used by the counterexamples and witnesses -/

/-- The e-commerce order data built by payForEcommerceOrder
(src/services/redeem.ts) for a one-item order of PROD-1. -/
def ecomOrderData1 : OrderData :=
  [("orderId", JValue.str "ORD-1"), ("customerEmail", JValue.str "a@b.c"),
   ("items", JValue.arr [JValue.obj
     [("productId", JValue.str "PROD-1"), ("quantity", JValue.num 1),
      ("price", JValue.num 5)]]),
   ("totalAmount", JValue.num 5), ("shippingAddress", JValue.undef),
   ("timestamp", JValue.num 1700000000000)]

/-- The same order with a different product: only the nested
items[0].productId value differs. -/
def ecomOrderData2 : OrderData :=
  [("orderId", JValue.str "ORD-1"), ("customerEmail", JValue.str "a@b.c"),
   ("items", JValue.arr [JValue.obj
     [("productId", JValue.str "PROD-2"), ("quantity", JValue.num 1),
      ("price", JValue.num 5)]]),
   ("totalAmount", JValue.num 5), ("shippingAddress", JValue.undef),
   ("timestamp", JValue.num 1700000000000)]

def pairAB : OrderData := [("a", JValue.num 1), ("b", JValue.num 2)]

def pairBA : OrderData := [("b", JValue.num 2), ("a", JValue.num 1)]

def merchantKey1 : PubKey := List.replicate 32 1

def tokenAccountKey1 : PubKey := List.replicate 32 2

def allotmentKey1 : PubKey := List.replicate 32 3

def ticketKey1 : PubKey := List.replicate 32 9

def orderIdStr1 : String := "order-1"

def simpleOrderData : OrderData := [("a", JValue.num 1)]

/-- A pending order expecting amount 20 from merchantKey1. -/
def pendingOrder20 : OrderStatus :=
  { orderId := orderIdStr1, orderData := simpleOrderData,
    paymentChallenge :=
      { status := 402, paymentRequired := true,
        paymentData :=
          { amount := 20, merchant := merchantKey1,
            merchantTokenAccount := tokenAccountKey1,
            orderHash := hashToHex (createContextHashArray simpleOrderData),
            orderData := simpleOrderData, orderId := some orderIdStr1 } },
    status := OrderState.pending, ticket := none, proofSubmittedAt := none }

def pendingStore1 : OrderStore := [(orderIdStr1, pendingOrder20)]

/-- A ticket with the correct merchant and the correct context hash for
pendingOrder20's order data, but amount 15 instead of 20. -/
def underpaidTicket : Ticket :=
  { allotment := allotmentKey1, merchant := merchantKey1,
    contextHash := createContextHashArray simpleOrderData, amount := 15,
    timestamp := 0 }

def fetchFailStr : String := "Account does not exist"

/-- A chain holding exactly underpaidTicket at ticketKey1. -/
def underpaidChain : Chain :=
  { fetchTicket := fun pk =>
      if pk == ticketKey1 then Except.ok underpaidTicket
      else Except.error fetchFailStr,
    merchantTickets := fun _ => Except.ok [(ticketKey1, underpaidTicket)] }

/-- A direct ticket-reference proof naming ticketKey1. -/
def ticketProof1 : PaymentProof :=
  { ticket := some ticketKey1, transactionSignature := none, orderHash := none }

/-- A paid order (proof already accepted) for the same challenge. -/
def paidOrder20 : OrderStatus :=
  { pendingOrder20 with
    status := OrderState.paid, ticket := some ticketKey1,
    proofSubmittedAt := some 5 }

def paidStore1 : OrderStore := [(orderIdStr1, paidOrder20)]

def hexPairStr : String := "0a0b"

/-- A ticket whose stored context hash equals the bytes of hexPairStr and
whose amount matches pendingOrder20's expected amount. -/
def matchingTicket20 : Ticket :=
  { allotment := allotmentKey1, merchant := merchantKey1,
    contextHash := [10, 11], amount := 20, timestamp := 0 }

/-- A chain holding matchingTicket20 as the merchant's only ticket. -/
def matchingChain : Chain :=
  { fetchTicket := fun pk =>
      if pk == ticketKey1 then Except.ok matchingTicket20
      else Except.error fetchFailStr,
    merchantTickets := fun _ => Except.ok [(ticketKey1, matchingTicket20)] }

/-- A hash-search proof for hexPairStr. -/
def hashProof1 : PaymentProof :=
  { ticket := none, transactionSignature := none, orderHash := some hexPairStr }

/-- An allotment that is both revoked and past its ttl. -/
def revokedExpiredAllotment : AllotmentAccount :=
  { mandate := allotmentKey1, agent := merchantKey1, allowedAmount := 10,
    spentAmount := 0, ttl := 100, revoked := true, redemptionCount := 0 }

/-- A deserialization failure as anchor surfaces it for an old-layout
account (error code 3003). -/
def adndError : JsError :=
  { message := some "AnchorError: AccountDidNotDeserialize. Error Number: 3003.",
    code := some 3003 }

def ownerKey1 : PubKey := List.replicate 32 7

/-- A 138-byte mandate record owned by ownerKey1 (owner bytes at [8..40)). -/
def mandateRecord1 : RawAccount :=
  { pubkey := List.replicate 32 11,
    data := List.replicate 8 255 ++ ownerKey1 ++ List.replicate 98 0 }

/-- A 120-byte ticket record for merchantKey1 (merchant bytes at [40..72)). -/
def ticketRecord1 : RawAccount :=
  { pubkey := List.replicate 32 12,
    data := List.replicate 8 254 ++ allotmentKey1 ++ merchantKey1
      ++ List.replicate 48 0 }

/-- A 138-byte mandate record owned by someone else. -/
def mandateRecordOther : RawAccount :=
  { pubkey := List.replicate 32 13,
    data := List.replicate 8 255 ++ List.replicate 32 8 ++ List.replicate 98 0 }

def scanAccounts1 : List RawAccount :=
  [mandateRecord1, ticketRecord1, mandateRecordOther]

/-- A ticket with the hexPairStr context hash but a wrong amount, for the
hash-search path. -/
def underpaidHashTicket : Ticket :=
  { allotment := allotmentKey1, merchant := merchantKey1,
    contextHash := [10, 11], amount := 15, timestamp := 0 }

/-- A chain holding underpaidHashTicket as the merchant's only ticket. -/
def underpaidHashChain : Chain :=
  { fetchTicket := fun _ => Except.error fetchFailStr,
    merchantTickets := fun _ => Except.ok [(ticketKey1, underpaidHashTicket)] }

/-- The status of the order stored under a key, if any. -/
def statusOf (store : OrderStore) (orderId : String) : Option OrderState :=
  (List.lookup orderId store).map OrderStatus.status

/-! ## Helper lemmas -/

theorem listStartsWith_nil (p : List Char) (hp : p ≠ []) :
    listStartsWith [] p = false := by
  cases p with
  | nil => exact absurd rfl hp
  | cons b t => rfl

theorem jsStrLtData_asymm_eq : ∀ s t : List Char,
    jsStrLtData s t = false → jsStrLtData t s = false → s = t := by
  intro s
  induction s with
  | nil =>
    intro t h1 _
    cases t with
    | nil => rfl
    | cons b t => simp [jsStrLtData] at h1
  | cons a s ih =>
    intro t h1 h2
    cases t with
    | nil => simp [jsStrLtData] at h2
    | cons b t =>
      simp only [jsStrLtData] at h1 h2
      by_cases hab : a.toNat < b.toNat
      · simp [hab] at h1
      · by_cases hba : b.toNat < a.toNat
        · simp [hba] at h2
        · simp [hab, hba] at h1 h2
          have hc : a = b := Char.ext (UInt32.toNat.inj
            (Nat.le_antisymm (Nat.le_of_not_lt hba) (Nat.le_of_not_lt hab)))
          rw [hc, ih t h1 h2]

theorem jsStrLtData_asymm : ∀ s t : List Char,
    jsStrLtData s t = true → jsStrLtData t s = false := by
  intro s
  induction s with
  | nil =>
    intro t h1
    cases t with
    | nil => simp [jsStrLtData] at h1
    | cons b t => rfl
  | cons a s ih =>
    intro t h1
    cases t with
    | nil => simp [jsStrLtData] at h1
    | cons b t =>
      simp only [jsStrLtData] at h1 ⊢
      by_cases hab : a.toNat < b.toNat
      · have hba : ¬b.toNat < a.toNat := by omega
        simp [hab, hba]
      · by_cases hba : b.toNat < a.toNat
        · simp [hab, hba] at h1
        · simp [hab, hba] at h1 ⊢
          exact ih t h1

theorem jsStrLtData_trans : ∀ s t u : List Char,
    jsStrLtData s t = true → jsStrLtData t u = true → jsStrLtData s u = true := by
  intro s
  induction s with
  | nil =>
    intro t u h1 h2
    cases u with
    | nil =>
      cases t with
      | nil => simp [jsStrLtData] at h1
      | cons b t => simp [jsStrLtData] at h2
    | cons c u => rfl
  | cons a s ih =>
    intro t u h1 h2
    cases t with
    | nil => simp [jsStrLtData] at h1
    | cons b t =>
      cases u with
      | nil => simp [jsStrLtData] at h2
      | cons c u =>
        simp only [jsStrLtData] at h1 h2 ⊢
        by_cases hab : a.toNat < b.toNat
        · by_cases hbc : b.toNat < c.toNat
          · have hac : a.toNat < c.toNat := by omega
            simp [hac]
          · by_cases hcb : c.toNat < b.toNat
            · simp [hbc, hcb] at h2
            · have hac : a.toNat < c.toNat := by omega
              simp [hac]
        · by_cases hba : b.toNat < a.toNat
          · simp [hab, hba] at h1
          · simp [hab, hba] at h1
            by_cases hbc : b.toNat < c.toNat
            · have hac : a.toNat < c.toNat := by omega
              simp [hac]
            · by_cases hcb : c.toNat < b.toNat
              · simp [hbc, hcb] at h2
              · simp [hbc, hcb] at h2
                have hac : ¬a.toNat < c.toNat := by omega
                have hca : ¬c.toNat < a.toNat := by omega
                simp [hac, hca]
                exact ih t u h1 h2

instance : IsAntisymm String (fun a b => jsLe a b = true) := by
  constructor
  intro a b h1 h2
  simp only [jsLe, Bool.not_eq_eq_eq_not, Bool.not_true] at h1 h2
  have hd : a.data = b.data := jsStrLtData_asymm_eq a.data b.data h2 h1
  cases a
  cases b
  exact congrArg String.mk hd

instance : IsTotal String (fun a b => jsLe a b = true) := by
  constructor
  intro a b
  simp only [jsLe, Bool.not_eq_eq_eq_not, Bool.not_true]
  by_cases h : jsStrLtData b.data a.data = true
  · exact Or.inr (jsStrLtData_asymm b.data a.data h)
  · exact Or.inl (Bool.not_eq_true _ ▸ h)

instance : IsTrans String (fun a b => jsLe a b = true) := by
  constructor
  intro a b c h1 h2
  simp only [jsLe, Bool.not_eq_eq_eq_not, Bool.not_true] at h1 h2 ⊢
  by_cases hca : jsStrLtData c.data a.data = true
  · exfalso
    by_cases hbc : jsStrLtData b.data c.data = true
    · have hba : jsStrLtData b.data a.data = true :=
        jsStrLtData_trans b.data c.data a.data hbc hca
      rw [hba] at h1
      exact Bool.true_eq_false.mp h1
    · have hb : b.data = c.data :=
        jsStrLtData_asymm_eq b.data c.data (Bool.not_eq_true _ ▸ hbc) h2
      rw [← hb] at hca
      rw [hca] at h1
      exact Bool.true_eq_false.mp h1
  · exact Bool.not_eq_true _ ▸ hca

theorem jsSortKeys_perm {l1 l2 : List String} (h : l1.Perm l2) :
    jsSortKeys l1 = jsSortKeys l2 := by
  apply List.eq_of_perm_of_sorted (r := fun a b : String => jsLe a b = true)
  · exact ((l1.perm_insertionSort _).trans h).trans (l2.perm_insertionSort _).symm
  · exact List.sorted_insertionSort _ l1
  · exact List.sorted_insertionSort _ l2

theorem lookup_perm {α β : Type} [DecidableEq α] :
    ∀ {l1 l2 : List (α × β)}, l1.Perm l2 → (l1.map Prod.fst).Nodup →
      ∀ k, List.lookup k l1 = List.lookup k l2 := by
  intro l1 l2 h
  induction h with
  | nil => intro _ _; rfl
  | cons x h ih =>
    intro hn k
    simp only [List.map_cons, List.nodup_cons] at hn
    simp only [List.lookup]
    by_cases hk : k = x.1
    · simp [hk]
    · have hk2 : (k == x.1) = false := beq_false_of_ne hk
      simp only [hk2]
      exact ih hn.2 k
  | swap x y l =>
    intro hn k
    simp only [List.map_cons, List.nodup_cons, List.mem_cons] at hn
    have hxy : y.1 ≠ x.1 := fun hcon => hn.1 (Or.inl hcon)
    simp only [List.lookup]
    by_cases hky : k = y.1
    · subst hky
      simp [beq_false_of_ne hxy]
    · by_cases hkx : k = x.1
      · subst hkx
        simp [beq_false_of_ne hky]
      · simp [beq_false_of_ne hky, beq_false_of_ne hkx]
  | trans h1 h2 ih1 ih2 =>
    intro hn k
    have hn2 := (h1.map Prod.fst).nodup hn
    rw [ih1 hn k, ih2 hn2 k]

theorem jfieldsSize_perm {l1 l2 : List (String × JValue)} (h : l1.Perm l2) :
    jvalSize.jfieldsSize l1 = jvalSize.jfieldsSize l2 := by
  induction h with
  | nil => rfl
  | cons x _ ih =>
    cases x
    simp only [jvalSize.jfieldsSize]
    omega
  | swap x y l =>
    cases x
    cases y
    simp only [jvalSize.jfieldsSize]
    omega
  | trans _ _ ih1 ih2 => omega

theorem serValF_obj_congr (fuel : Nat) (P : List String)
    {l1 l2 : List (String × JValue)}
    (h : ∀ k, List.lookup k l1 = List.lookup k l2) :
    serValF fuel P (JValue.obj l1) = serValF fuel P (JValue.obj l2) := by
  cases fuel with
  | zero => rfl
  | succ n =>
    simp only [serValF]
    have hfm := List.filterMap_congr
      (f := fun k =>
        match List.lookup k l1 with
        | some v =>
          match serValF n P v with
          | some s => some (quoteJSONStr k ++ colonStr ++ s)
          | none => none
        | none => none)
      (g := fun k =>
        match List.lookup k l2 with
        | some v =>
          match serValF n P v with
          | some s => some (quoteJSONStr k ++ colonStr ++ s)
          | none => none
        | none => none)
      (l := P)
      (fun k _ => by simp only [h k])
    rw [hfm]

/-! ## Claim theorems -/

/-- C6: for every pair of context/order records that contain the same keys
mapped to the same values but constructed in different key insertion orders,
createContextHash returns identical 32-byte hashes; in particular the hash
of the record with fields a=1, b=2 equals the hash of the record with
fields b=2, a=1. -/
theorem createContextHash_canonicalization :
    (∀ od1 od2 : OrderData, od1.Perm od2 → (od1.map Prod.fst).Nodup →
      createContextHash od1 = createContextHash od2)
    ∧ createContextHash pairAB = createContextHash pairBA := by
  constructor
  · intro od1 od2 h hn
    have hkeys : jsSortKeys (od1.map Prod.fst) = jsSortKeys (od2.map Prod.fst) :=
      jsSortKeys_perm (h.map Prod.fst)
    have hsize : jvalSize (JValue.obj od1) = jvalSize (JValue.obj od2) := by
      simp only [jvalSize]
      rw [jfieldsSize_perm h]
    have hser : normalizeOrderData od1 = normalizeOrderData od2 := by
      unfold normalizeOrderData
      rw [hkeys, hsize, serValF_obj_congr _ _ (lookup_perm h hn)]
    exact congrArg (fun s => sha256 (utf8Encode s)) hser
  · exact congrArg (fun s => sha256 (utf8Encode s))
      (show normalizeOrderData pairAB = normalizeOrderData pairBA from rfl)

/-- Witness for C6 at the concrete records of the claim: the two-field
record hashed in both insertion orders, with the permutation and
key-uniqueness hypotheses discharged concretely. -/
theorem createContextHash_canonicalization_witness :
    createContextHash pairAB = createContextHash pairBA :=
  createContextHash_canonicalization.1 pairAB pairBA
    (List.Perm.swap ("b", JValue.num 2) ("a", JValue.num 1) [])
    (by decide)

/-- C2 is false on the code: two e-commerce orders that differ only in the
nested items[0].productId value are distinct records, yet createContextHash
maps them to the same digest, because the sorted-keys array replacer passed
to JSON.stringify drops every nested object field whose key is not also a
top-level key (the items serialize as [(empty object)]). -/
theorem createContextHash_nested_value_collision :
    ecomOrderData1 ≠ ecomOrderData2
    ∧ createContextHash ecomOrderData1 = createContextHash ecomOrderData2 := by
  constructor
  · intro h
    simp [ecomOrderData1, ecomOrderData2] at h
  · exact congrArg (fun s => sha256 (utf8Encode s))
      (show normalizeOrderData ecomOrderData1 = normalizeOrderData ecomOrderData2 from rfl)

/-- C5: getAllotmentStatus computes the derived status in the fixed
precedence revoked, then expired, then fully-spent, then active (stated by
refinement against the spec-worded definition), and a revoked allotment
always reports revoked — in particular a revoked-and-expired allotment
never reports expired. -/
theorem getAllotmentStatus_precedence :
    ∀ (nowMs : Int) (a : AllotmentAccount),
      getAllotmentStatus nowMs a = allotmentStatusSpec nowMs a
      ∧ (a.revoked = true → getAllotmentStatus nowMs a = AllotmentStatus.revoked)
      ∧ (a.revoked = true → nowMs > a.ttl * 1000 →
          getAllotmentStatus nowMs a ≠ AllotmentStatus.expired) := by
  intro nowMs a
  refine ⟨rfl, ?_, ?_⟩
  · intro h
    simp [getAllotmentStatus, h]
  · intro h _
    simp [getAllotmentStatus, h]

/-- Witness for C5: a concrete allotment that is both revoked and past its
ttl reports revoked, not expired. -/
theorem getAllotmentStatus_precedence_witness :
    getAllotmentStatus 1000000 revokedExpiredAllotment = AllotmentStatus.revoked
    ∧ getAllotmentStatus 1000000 revokedExpiredAllotment ≠ AllotmentStatus.expired :=
  ⟨(getAllotmentStatus_precedence 1000000 revokedExpiredAllotment).2.1 rfl,
   (getAllotmentStatus_precedence 1000000 revokedExpiredAllotment).2.2 rfl (by decide)⟩

/-- C9: fetchAllotment maps any fetch failure whose message contains
AccountDidNotDeserialize or whose code is 3003 to the distinct
incompatible-record-version error carrying the create-a-new-allotment
message, never to a rethrow of the underlying error. -/
theorem fetchAllotment_incompatible_version :
    ∀ (allotmentB58 : String) (e : JsError), isDeserializeFailure e = true →
      fetchAllotment allotmentB58 (Except.error e)
        = Except.error
            (FetchAllotmentError.incompatibleVersion (incompatMessage allotmentB58))
      ∧ (∀ e2 : JsError,
          FetchAllotmentError.incompatibleVersion (incompatMessage allotmentB58)
            ≠ FetchAllotmentError.rethrown e2) := by
  intro b e h
  constructor
  · simp [fetchAllotment, h]
  · intro e2 hcon
    exact FetchAllotmentError.noConfusion hcon

/-- Witness for C9: the anchor AccountDidNotDeserialize error (code 3003)
is concretely classified as a deserialization failure and mapped to the
incompatible-version error. -/
theorem fetchAllotment_incompatible_version_witness :
    isDeserializeFailure adndError = true
    ∧ fetchAllotment "AllotmentAddr1111" (Except.error adndError)
        = Except.error
            (FetchAllotmentError.incompatibleVersion (incompatMessage "AllotmentAddr1111")) :=
  ⟨by decide,
   (fetchAllotment_incompatible_version "AllotmentAddr1111" adndError (by decide)).1⟩

/-- C8: the ledger-wide scans filter by the fixed byte layout without
deserializing candidates — getUserMandates selects exactly the 138-byte
records whose bytes [8..40) equal the owner identity, and
getMerchantTickets exactly the 120-byte records whose bytes [40..72) equal
the merchant identity. -/
theorem ledger_scan_byte_offset_filters :
    ∀ (owner merchant : PubKey) (accounts : List RawAccount),
      owner.length = 32 → merchant.length = 32 →
      getUserMandates owner accounts
        = (accounts.filter (mandateScanSpec owner)).map RawAccount.pubkey
      ∧ getMerchantTickets merchant accounts
        = (accounts.filter (ticketScanSpec merchant)).map RawAccount.pubkey := by
  intro owner merchant accounts ho hm
  constructor
  · unfold getUserMandates getProgramAccounts
    congr 1
    apply List.filter_congr
    intro a _
    simp only [List.all_cons, List.all_nil, matchesFilter, mandateScanSpec,
      byteSlice, ho, Bool.and_true]
  · unfold getMerchantTickets getProgramAccounts
    congr 1
    apply List.filter_congr
    intro a _
    simp only [List.all_cons, List.all_nil, matchesFilter, ticketScanSpec,
      byteSlice, hm, Bool.and_true]

/-- Witness for C8 on a concrete ledger: one matching mandate record, one
ticket record and one foreign mandate record, with both identity-length
hypotheses discharged concretely. -/
theorem ledger_scan_byte_offset_filters_witness :
    getUserMandates ownerKey1 scanAccounts1
      = (scanAccounts1.filter (mandateScanSpec ownerKey1)).map RawAccount.pubkey
    ∧ getMerchantTickets merchantKey1 scanAccounts1
      = (scanAccounts1.filter (ticketScanSpec merchantKey1)).map RawAccount.pubkey :=
  ledger_scan_byte_offset_filters ownerKey1 merchantKey1 scanAccounts1
    (by decide) (by decide)

/-- C1 is broken in the settlement client: redeemAllotment invokes
deriveTicketPDA with only three of its four arguments, so the program id
sits in the redemptionCount slot (where toArrayLike is not a function — a
TypeError at run time) and the programId slot is undefined; the claimed
derivation from (ticket, merchant, allotment, redemption_count LE8) is
never performed, even though deriveTicketPDA itself computes exactly that
seed tuple when called with a BN count. -/
theorem redeemAllotment_ticket_derivation_code_bug :
    ∀ (pdafn : List (List Nat) → List Nat → List Nat × Nat)
      (merchant allotment programId : List Nat),
      redeemAllotmentTicketDerivation pdafn merchant allotment programId
        = Except.error (JsFailure.typeError "toArrayLike")
      ∧ ∀ count : Nat,
          deriveTicketPDA pdafn merchant allotment (JsArg.bn count)
              (JsArg.pubkey programId)
            = Except.ok
                (pdafn [ticketSeedBytes, merchant, allotment, le8Bytes count]
                  programId) := by
  intro pdafn merchant allotment programId
  exact ⟨rfl, fun count => rfl⟩

/-! ## Payment gate lemmas -/

theorem lookup_mapSet :
    ∀ (store : OrderStore) (k : String) (v : OrderStatus) (q : String),
      List.lookup q (mapSet store k v)
        = if q = k then some v else List.lookup q store := by
  intro store k v
  induction store with
  | nil =>
    intro q
    by_cases h : q = k
    · simp [mapSet, List.lookup, h]
    · simp [mapSet, List.lookup, h, beq_false_of_ne h]
  | cons p t ih =>
    intro q
    rcases p with ⟨k1, v1⟩
    by_cases h1 : k1 = k
    · subst h1
      by_cases hq : q = k1
      · subst hq
        simp [mapSet, List.lookup]
      · simp [mapSet, List.lookup, beq_false_of_ne hq, hq]
    · by_cases hq : q = k1
      · subst hq
        have hqk : q ≠ k := fun hcon => h1 (hcon ▸ rfl)
        simp [mapSet, h1, List.lookup, hqk]
      · simp [mapSet, h1, List.lookup, beq_false_of_ne hq, ih q]

theorem verify_already_paid :
    ∀ (chain : Chain) (nowMs : Nat) (store : OrderStore) (orderId : String)
      (proof : PaymentProof) (o : OrderStatus),
      List.lookup orderId store = some o →
      (o.status = OrderState.paid ∨ o.status = OrderState.fulfilled) →
      verifyPaymentProof chain nowMs store orderId proof
        = (store, { valid := false, ticket := none,
                    error := some orderAlreadyPaidMsg }) := by
  intro chain nowMs store orderId proof o hlk hst
  unfold verifyPaymentProof
  rw [hlk]
  simp [hst]

theorem verify_cases :
    ∀ (chain : Chain) (nowMs : Nat) (store : OrderStore) (orderId : String)
      (proof : PaymentProof),
      ((verifyPaymentProof chain nowMs store orderId proof).1 = store
        ∧ (verifyPaymentProof chain nowMs store orderId proof).2.valid = false)
      ∨ (∃ o tkpk, List.lookup orderId store = some o
          ∧ o.status = OrderState.pending
          ∧ (verifyPaymentProof chain nowMs store orderId proof).1
              = mapSet store orderId
                  { o with
                    status := OrderState.paid, ticket := some tkpk,
                    proofSubmittedAt := some nowMs }
          ∧ (verifyPaymentProof chain nowMs store orderId proof).2
              = { valid := true, ticket := some tkpk, error := none }) := by
  intro chain nowMs store orderId proof
  unfold verifyPaymentProof
  split
  · exact Or.inl ⟨rfl, rfl⟩
  · rename_i o hlk
    split
    · exact Or.inl ⟨rfl, rfl⟩
    · rename_i hst
      have hpend : o.status = OrderState.pending := by
        cases hx : o.status
        · rfl
        · exact absurd (Or.inl hx) hst
        · exact absurd (Or.inr hx) hst
      split
      · rename_i tk hpt
        split
        · exact Or.inl ⟨rfl, rfl⟩
        · rename_i td hft
          split
          · split
            · refine Or.inr ⟨o, tk, hlk, hpend, ?_, rfl⟩
              unfold updateOrder
              rw [hlk]
              rfl
            · exact Or.inl ⟨rfl, rfl⟩
          · exact Or.inl ⟨rfl, rfl⟩
      · rename_i hpt
        split
        · rename_i oh hph
          split
          · exact Or.inl ⟨rfl, rfl⟩
          · rename_i found hfind
            split
            · exact Or.inl ⟨rfl, rfl⟩
            · refine Or.inr ⟨o, found.1, hlk, hpend, ?_, rfl⟩
              unfold updateOrder
              rw [hlk]
              rfl
          · exact Or.inl ⟨rfl, rfl⟩
        · exact Or.inl ⟨rfl, rfl⟩

/-- C4 as amended: order statuses are the three values of OrderState by
construction, verifyPaymentProof only ever moves an order from pending to
paid, fulfillOrder only from paid to fulfilled, and createPaymentChallenge
always stores the challenged orderId as a fresh pending order — which, for
a reused orderId, resets an existing (possibly paid or fulfilled) order
back to pending. -/
theorem paymentGate_status_transitions :
    (∀ (chain : Chain) (nowMs : Nat) (store : OrderStore) (orderId : String)
       (proof : PaymentProof) (q : String),
       statusOf (verifyPaymentProof chain nowMs store orderId proof).1 q
         = statusOf store q
       ∨ (statusOf store q = some OrderState.pending
          ∧ statusOf (verifyPaymentProof chain nowMs store orderId proof).1 q
              = some OrderState.paid))
    ∧ (∀ (store : OrderStore) (orderId q : String),
       statusOf (fulfillOrder store orderId).1 q = statusOf store q
       ∨ (statusOf store q = some OrderState.paid
          ∧ statusOf (fulfillOrder store orderId).1 q
              = some OrderState.fulfilled))
    ∧ (∀ (store : OrderStore) (orderId : String) (orderData : OrderData)
       (amount : Nat) (merchant merchantTokenAccount : PubKey) (q : String),
       statusOf (createPaymentChallenge store orderId orderData amount merchant
           merchantTokenAccount).1 q
         = if q = orderId then some OrderState.pending else statusOf store q) := by
  refine ⟨?_, ?_, ?_⟩
  · intro chain nowMs store orderId proof q
    rcases verify_cases chain nowMs store orderId proof with
      ⟨h1, _⟩ | ⟨o, tk, hlk, hpend, h1, _⟩
    · left
      rw [h1]
    · by_cases hq : q = orderId
      · subst hq
        right
        constructor
        · simp only [statusOf, hlk, Option.map]
          rw [hpend]
        · simp [statusOf, h1, lookup_mapSet]
      · left
        simp only [statusOf, h1, lookup_mapSet, if_neg hq]
  · intro store orderId q
    unfold fulfillOrder
    split
    · rename_i o hlk
      split
      · rename_i hst
        by_cases hq : q = orderId
        · subst hq
          right
          constructor
          · simp only [statusOf, hlk, Option.map]
            rw [hst]
          · simp [statusOf, updateOrder, hlk, lookup_mapSet, applyUpdates]
        · left
          simp only [statusOf, updateOrder, hlk, lookup_mapSet, if_neg hq]
      · left
        rfl
    · left
      rfl
  · intro store orderId orderData amount merchant merchantTokenAccount q
    unfold createPaymentChallenge createOrder statusOf
    rw [lookup_mapSet]
    by_cases hq : q = orderId
    · simp [hq]
    · simp [hq]

/-- C4 is false as stated: reusing an orderId in createPaymentChallenge
performs the forbidden paid-to-pending transition — a store holding the
paid order of orderIdStr1 comes back with that order pending after the
merchant issues a new challenge under the same orderId. -/
theorem paymentGate_paid_to_pending_counterexample :
    statusOf paidStore1 orderIdStr1 = some OrderState.paid
    ∧ statusOf (createPaymentChallenge paidStore1 orderIdStr1 simpleOrderData
        20 merchantKey1 tokenAccountKey1).1 orderIdStr1
        = some OrderState.pending := by
  exact ⟨rfl, rfl⟩

/-- C7: after one successful verifyPaymentProof for an order, isOrderPaid
on the resulting store returns true, and every further verifyPaymentProof
call for the same order (any chain, any time, any proof) returns the store
unchanged with the already-paid result — the status stays paid, the stored
ticket reference is not replaced, and no re-transition occurs. -/
theorem paymentGate_idempotence :
    ∀ (chain : Chain) (nowMs : Nat) (store : OrderStore) (orderId : String)
      (proof : PaymentProof),
      (verifyPaymentProof chain nowMs store orderId proof).2.valid = true →
      isOrderPaid (verifyPaymentProof chain nowMs store orderId proof).1 orderId
        = true
      ∧ (∀ (chain2 : Chain) (now2 : Nat) (proof2 : PaymentProof),
          verifyPaymentProof chain2 now2
              (verifyPaymentProof chain nowMs store orderId proof).1 orderId proof2
            = ((verifyPaymentProof chain nowMs store orderId proof).1,
               { valid := false, ticket := none,
                 error := some orderAlreadyPaidMsg })) := by
  intro chain nowMs store orderId proof hv
  rcases verify_cases chain nowMs store orderId proof with
    ⟨_, h2⟩ | ⟨o, tk, hlk, hpend, h1, _⟩
  · rw [h2] at hv
    exact absurd hv (by simp)
  · have hlk2 : List.lookup orderId (verifyPaymentProof chain nowMs store orderId proof).1
        = some { o with
                 status := OrderState.paid, ticket := some tk,
                 proofSubmittedAt := some nowMs } := by
      rw [h1, lookup_mapSet]
      simp
    constructor
    · unfold isOrderPaid
      rw [hlk2]
      simp
    · intro chain2 now2 proof2
      exact verify_already_paid chain2 now2 _ orderId proof2 _ hlk2 (Or.inl rfl)

/-- Witness for C7: a concrete successful hash-search verification, after
which isOrderPaid is true and a repeated verification is a no-op returning
the already-paid result. -/
theorem paymentGate_idempotence_witness :
    (verifyPaymentProof matchingChain 7 pendingStore1 orderIdStr1 hashProof1).2.valid
      = true
    ∧ isOrderPaid
        (verifyPaymentProof matchingChain 7 pendingStore1 orderIdStr1 hashProof1).1
        orderIdStr1 = true
    ∧ verifyPaymentProof matchingChain 8
        (verifyPaymentProof matchingChain 7 pendingStore1 orderIdStr1 hashProof1).1
        orderIdStr1 hashProof1
      = ((verifyPaymentProof matchingChain 7 pendingStore1 orderIdStr1 hashProof1).1,
         { valid := false, ticket := none, error := some orderAlreadyPaidMsg }) := by
  have h := paymentGate_idempotence matchingChain 7 pendingStore1 orderIdStr1
    hashProof1 (by decide)
  exact ⟨by decide, h.1, h.2 matchingChain 8 hashProof1⟩

set_option maxRecDepth 8000 in
/-- C3 is false on the direct ticket path: a proof referencing a ticket
whose merchant and context hash match the order but whose amount (15) is
not the expected amount (20) is accepted — verifyPaymentProof returns
valid with no error and marks the order paid, instead of rejecting with
the amount-mismatch error and leaving the order pending. -/
theorem verifyProof_ticket_path_accepts_amount_mismatch :
    underpaidTicket.amount ≠ pendingOrder20.paymentChallenge.paymentData.amount
    ∧ (verifyPaymentProof underpaidChain 7 pendingStore1 orderIdStr1
        ticketProof1).2.valid = true
    ∧ (verifyPaymentProof underpaidChain 7 pendingStore1 orderIdStr1
        ticketProof1).2.error = none
    ∧ statusOf (verifyPaymentProof underpaidChain 7 pendingStore1 orderIdStr1
        ticketProof1).1 orderIdStr1 = some OrderState.paid := by
  refine ⟨by decide, ?_, ?_, ?_⟩
  · decide
  · decide
  · decide

/-- C3 as amended: the amount check exists only on the hash-search path —
when the proof carries no ticket reference and a context hash whose search
finds a ticket with a different amount, verifyPaymentProof rejects with
the payment-amount-mismatch error and leaves the store (hence the order's
pending status) unchanged.  The direct ticket path checks merchant and
context hash only. -/
theorem verifyProof_hash_path_amount_mismatch :
    ∀ (chain : Chain) (nowMs : Nat) (store : OrderStore) (orderId : String)
      (proof : PaymentProof) (o : OrderStatus) (oh : String)
      (found : PubKey × Ticket),
      List.lookup orderId store = some o → o.status = OrderState.pending →
      proof.ticket = none → proof.orderHash = some oh →
      findTicketByHash chain o.paymentChallenge.paymentData.merchant
          (hexToHashArray oh) = Except.ok (some found) →
      found.2.amount ≠ o.paymentChallenge.paymentData.amount →
      verifyPaymentProof chain nowMs store orderId proof
        = (store, { valid := false, ticket := none,
                    error := some amountMismatchMsg }) := by
  intro chain nowMs store orderId proof o oh found hlk hpend hpt hph hfind hamt
  unfold verifyPaymentProof
  have hst : ¬(o.status = OrderState.paid ∨ o.status = OrderState.fulfilled) := by
    rw [hpend]
    simp
  simp only [hlk, hpt, hph, hfind, if_neg hst, if_pos hamt]

/-- Witness for C3's amended theorem: a concrete hash-search proof finding
a ticket of amount 15 against an order expecting 20 is rejected with the
amount-mismatch error and the store is unchanged. -/
theorem verifyProof_hash_path_amount_mismatch_witness :
    verifyPaymentProof underpaidHashChain 7 pendingStore1 orderIdStr1 hashProof1
      = (pendingStore1, { valid := false, ticket := none,
                          error := some amountMismatchMsg }) :=
  verifyProof_hash_path_amount_mismatch underpaidHashChain 7 pendingStore1
    orderIdStr1 hashProof1 pendingOrder20 hexPairStr
    (ticketKey1, underpaidHashTicket) rfl rfl rfl rfl rfl (by decide)

/-- C10: orderId, orderData and paymentChallenge are fixed at creation —
createPaymentChallenge stores them with status pending and no ticket or
proof timestamp — and never modified afterwards: any verifyPaymentProof
call (successful or not) preserves the orderId, orderData and
paymentChallenge of every stored order, touching at most status, ticket
and proofSubmittedAt, and fulfillOrder preserves every field except
status. -/
theorem paymentGate_frame_conditions :
    (∀ (chain : Chain) (nowMs : Nat) (store : OrderStore) (orderId q : String)
       (proof : PaymentProof) (o o2 : OrderStatus),
       List.lookup q store = some o →
       List.lookup q (verifyPaymentProof chain nowMs store orderId proof).1
         = some o2 →
       o2.orderId = o.orderId ∧ o2.orderData = o.orderData
       ∧ o2.paymentChallenge = o.paymentChallenge)
    ∧ (∀ (store : OrderStore) (orderId q : String) (o o2 : OrderStatus),
       List.lookup q store = some o →
       List.lookup q (fulfillOrder store orderId).1 = some o2 →
       o2.orderId = o.orderId ∧ o2.orderData = o.orderData
       ∧ o2.paymentChallenge = o.paymentChallenge ∧ o2.ticket = o.ticket
       ∧ o2.proofSubmittedAt = o.proofSubmittedAt)
    ∧ (∀ (store : OrderStore) (orderId : String) (orderData : OrderData)
       (amount : Nat) (merchant merchantTokenAccount : PubKey),
       List.lookup orderId (createPaymentChallenge store orderId orderData
           amount merchant merchantTokenAccount).1
         = some { orderId := orderId, orderData := orderData,
                  paymentChallenge := (createPaymentChallenge store orderId
                    orderData amount merchant merchantTokenAccount).2,
                  status := OrderState.pending, ticket := none,
                  proofSubmittedAt := none }) := by
  refine ⟨?_, ?_, ?_⟩
  · intro chain nowMs store orderId q proof o o2 h1 h2
    rcases verify_cases chain nowMs store orderId proof with
      ⟨hs, _⟩ | ⟨o0, tk, hlk, hpend, hs, _⟩
    · rw [hs, h1] at h2
      injection h2 with h3
      rw [← h3]
      exact ⟨rfl, rfl, rfl⟩
    · rw [hs, lookup_mapSet] at h2
      by_cases hq : q = orderId
      · rw [if_pos hq] at h2
        injection h2 with h3
        rw [hq, hlk] at h1
        injection h1 with h4
        rw [← h3, h4]
        exact ⟨rfl, rfl, rfl⟩
      · rw [if_neg hq, h1] at h2
        injection h2 with h3
        rw [← h3]
        exact ⟨rfl, rfl, rfl⟩
  · intro store orderId q o o2 h1 h2
    revert h2
    unfold fulfillOrder
    split
    · rename_i o0 hlk
      split
      · rename_i hst
        simp only [updateOrder, hlk, lookup_mapSet]
        by_cases hq : q = orderId
        · rw [if_pos hq]
          intro h2
          injection h2 with h3
          rw [hq, hlk] at h1
          injection h1 with h4
          rw [← h3, h4]
          exact ⟨rfl, rfl, rfl, rfl, rfl⟩
        · rw [if_neg hq]
          intro h2
          rw [h1] at h2
          injection h2 with h3
          rw [← h3]
          exact ⟨rfl, rfl, rfl, rfl, rfl⟩
      · intro h2
        rw [h1] at h2
        injection h2 with h3
        rw [← h3]
        exact ⟨rfl, rfl, rfl, rfl, rfl⟩
    · intro h2
      rw [h1] at h2
      injection h2 with h3
      rw [← h3]
      exact ⟨rfl, rfl, rfl, rfl, rfl⟩
  · intro store orderId orderData amount merchant merchantTokenAccount
    unfold createPaymentChallenge createOrder
    rw [lookup_mapSet, if_pos rfl]

/-- Witness for C10: a concrete successful verification rewrites only
status, ticket and proofSubmittedAt of the stored order; a concrete
fulfillOrder call rewrites only the status. -/
theorem paymentGate_frame_conditions_witness :
    List.lookup orderIdStr1
        (verifyPaymentProof matchingChain 7 pendingStore1 orderIdStr1 hashProof1).1
      = some { pendingOrder20 with
               status := OrderState.paid, ticket := some ticketKey1,
               proofSubmittedAt := some 7 }
    ∧ ({ pendingOrder20 with
         status := OrderState.paid, ticket := some ticketKey1,
         proofSubmittedAt := some 7 } : OrderStatus).orderData
        = pendingOrder20.orderData
    ∧ ({ pendingOrder20 with
         status := OrderState.paid, ticket := some ticketKey1,
         proofSubmittedAt := some 7 } : OrderStatus).paymentChallenge
        = pendingOrder20.paymentChallenge
    ∧ List.lookup orderIdStr1 (fulfillOrder paidStore1 orderIdStr1).1
      = some { paidOrder20 with status := OrderState.fulfilled }
    ∧ ({ paidOrder20 with status := OrderState.fulfilled } : OrderStatus).ticket
        = paidOrder20.ticket := by
  have hv := (paymentGate_frame_conditions.1 matchingChain 7 pendingStore1
    orderIdStr1 orderIdStr1 hashProof1 pendingOrder20
    { pendingOrder20 with
      status := OrderState.paid, ticket := some ticketKey1,
      proofSubmittedAt := some 7 } rfl rfl)
  have hf := (paymentGate_frame_conditions.2.1 paidStore1 orderIdStr1
    orderIdStr1 paidOrder20
    { paidOrder20 with status := OrderState.fulfilled } rfl rfl)
  exact ⟨rfl, hv.2.1, hv.2.2, rfl, hf.2.2.2.1⟩
